import Mathlib

/-!
Verification development for the video_poc repository.

The repository is a Python service (app.py, main.py, prompt_generator.py,
video_generator.py) that generates product-advertisement videos through a
long-running-operation pipeline: an HTTP endpoint creates a Job Record,
a background pipeline generates a prompt, submits a video-generation
operation, polls it, and records the terminal state.

This file gives a shallow embedding of the relevant code paths:
- Python exceptions are modelled by the type PyExc; a Python function that
  may raise returns Except PyExc.
- The two in-memory dictionaries (video_status_store in app.py and
  operation_store in video_generator.py) are modelled as functions from
  String to Option of the record type; dict assignment, dict lookup, dict
  update and del are modelled by storeSet, lookup, storeUpdate, storeDel.
- Wall-clock time (time.time()) is passed explicitly as a Nat argument.
- Results of calls into the external generative-AI backend are passed as
  explicit Except-valued parameters, since they are network effects.
-/

namespace VideoPoc

/-- A Python exception, carrying its message string; str of the exception is
modelled by pyStr below. -/
inductive PyExc where
  | typeError (msg : String)
  | keyError (msg : String)
  | exception (msg : String)
deriving DecidableEq, Repr

/-- Models the Python expression str(e) on an exception. -/
def pyStr : PyExc → String
  | .typeError m => m
  | .keyError m => m
  | .exception m => m

/-! ## video_generator.py : operation metadata store and records -/

/-- One entry of operation_store in video_generator.py.  The primary path
(lines 64-74) stores operation_id, prompt, duration_seconds, aspect_ratio,
sample_count, output_gcs_uri, status, created_at and model_response; the
fallback path (lines 124-139) stores video_production_plan and model_used
instead of model_response; the poller (lines 192-194) adds completed_at and
result_uri.  Keys absent from a given Python dict are modelled as none.
The constant generation_config sub-dictionary is not inspected by any code
path and is omitted. -/
structure OperationMetadata where
  operation_id : String
  prompt : String
  duration_seconds : Nat
  aspect_ratio : String
  sample_count : Nat
  output_gcs_uri : String
  status : String
  created_at : Nat
  model_response : Option String := none
  video_production_plan : Option String := none
  model_used : Option String := none
  completed_at : Option Nat := none
  result_uri : Option String := none
deriving DecidableEq, Repr

/-- The module-level dictionary operation_store (video_generator.py line 16). -/
def OpStore : Type := String → Option OperationMetadata

/-- The empty operation store. -/
def emptyOpStore : OpStore := fun _ => none

/-- Python dict assignment operation_store[k] = m
(store_operation_metadata, line 157). -/
def opStoreSet (s : OpStore) (k : String) (m : OperationMetadata) : OpStore :=
  fun q => if q = k then some m else s q

/-- Python operation_store.get(k) (get_operation_metadata, line 162). -/
def get_operation_metadata (s : OpStore) (k : String) : Option OperationMetadata :=
  s k

/-- Result of one call of a generative model, response.text being none when
the response carries no text (Python falsy also covers the empty string,
handled in textOrDefault). -/
structure GenResponse where
  text : Option String
deriving DecidableEq, Repr

/-- Models the Python expression (response.text if response.text else d):
none and the empty string are falsy. -/
def textOrDefault (r : GenResponse) (d : String) : String :=
  match r.text with
  | some s => if s = "" then d else s
  | none => d

/-- Behaviour of the two external backend calls made by
generate_video_with_veo3: the primary video-generation model call
(line 54) and the fallback text-model call (line 118).  Each either
returns a response or raises. -/
structure GenEnv where
  primary : Except PyExc GenResponse
  fallback : Except PyExc GenResponse

/-- Shallow embedding of generate_video_with_veo3 (video_generator.py lines
18-153).  opId models str(uuid.uuid4()) and now models time.time(); both are
effects passed in explicitly.  Returns the operation name returned to the
caller together with the operation store after the call.  The outer try
(line 24) catches any exception, including one escaping the inner fallback
handler, and returns the sentinel name (line 153) without writing the
store. -/
def generate_video_with_veo3 (env : GenEnv) (veo3_prompt output_gcs_uri : String)
    (duration_seconds : Nat) (aspect_ratio : String) (sample_count : Nat)
    (opId : String) (now : Nat) (store : OpStore) : String × OpStore :=
  let operation_name := "video_generation_" ++ opId
  match env.primary with
  | .ok resp =>
      -- lines 64-80: store metadata with status in_progress, return the name
      let metadata : OperationMetadata :=
        { operation_id := opId
          prompt := veo3_prompt
          duration_seconds := duration_seconds
          aspect_ratio := aspect_ratio
          sample_count := sample_count
          output_gcs_uri := output_gcs_uri
          status := "in_progress"
          created_at := now
          model_response := some (textOrDefault resp "No text response") }
      (operation_name, opStoreSet store operation_name metadata)
  | .error _ =>
      -- lines 82-147: inner except, fallback text-based production plan
      match env.fallback with
      | .ok resp =>
          let metadata : OperationMetadata :=
            { operation_id := opId
              prompt := veo3_prompt
              duration_seconds := duration_seconds
              aspect_ratio := aspect_ratio
              sample_count := sample_count
              output_gcs_uri := output_gcs_uri
              status := "production_plan_generated"
              created_at := now
              video_production_plan :=
                some (textOrDefault resp "No production plan generated")
              model_used := some "gemini-2.5-flash" }
          (operation_name, opStoreSet store operation_name metadata)
      | .error _ =>
          -- lines 149-153: outer except, dummy fallback, store untouched
          ("dummy_operation_name", store)

/-- Status value returned by one poll of check_video_generation_status:
the status field of the returned Python dict together with its uri or
error payload.  The failed variant never arises from this poller but is
part of the protocol checked by poll_for_video_completion. -/
inductive PollStatus where
  | succeeded (uri : String)
  | in_progress
  | failed (err : String)
  | error (err : String)
deriving DecidableEq, Repr

/-- Shallow embedding of check_video_generation_status (video_generator.py
lines 164-206).  now models time.time().  Returns the poll result and the
operation store after the call (the poller mutates the record on the
succeeded transition, lines 192-195).  The body raises no exception in this
model, so the except branch of line 204 is dead here. -/
def check_video_generation_status (store : OpStore) (operation_name : String)
    (now : Nat) : PollStatus × OpStore :=
  if operation_name = "dummy_operation_name" then
    -- lines 170-174: synthetic success, store not consulted
    (.succeeded "gs://dummy-bucket/generated_video.mp4", store)
  else
    match get_operation_metadata store operation_name with
    | none =>
        -- lines 178-180
        (.error "Operation not found", store)
    | some metadata =>
        -- lines 183-184: elapsed wall-clock time since creation
        let elapsed := now - metadata.created_at
        if elapsed > 10 then
          -- lines 186-198: transition, rewriting the record on every poll
          let video_filename := metadata.operation_id ++ ".mp4"
          let result_uri := metadata.output_gcs_uri ++ video_filename
          let updated : OperationMetadata :=
            { metadata with
                status := "succeeded"
                completed_at := some now
                result_uri := some result_uri }
          (.succeeded result_uri, opStoreSet store operation_name updated)
        else
          -- lines 199-202
          (.in_progress, store)

/-! ## video_generator.py : the poll loop

poll_for_video_completion (lines 208-225) loops while the elapsed time
since loop start stays below the timeout, issuing one poll per iteration
and sleeping poll_interval seconds after every non-terminal poll.  The
sequence of statuses the successive polls return is abstracted as a
function from the poll index to a PollStatus, since each poll depends on
wall-clock time and on the evolving operation store.  The recursion is
bounded by a fuel argument of timeout + 1, which never runs out when
poll_interval is positive (each sleep advances elapsed time by at least
one); fuel exhaustion conservatively behaves like the timeout exit. -/

/-- One while-iteration chain of poll_for_video_completion: elapsed is the
time since loop start, k the index of the next poll.  Returns the value
returned by the loop together with the elapsed time at exit. -/
def pollLoopGo (poller : Nat → PollStatus) (poll_interval timeout : Nat) :
    Nat → Nat → Nat → Option String × Nat
  | 0, elapsed, _ => (none, elapsed)
  | fuel + 1, elapsed, k =>
      if elapsed < timeout then
        match poller k with
        | .succeeded uri => (some uri, elapsed)
        | .failed _ => (none, elapsed)
        | .error _ => (none, elapsed)
        | .in_progress => pollLoopGo poller poll_interval timeout fuel
            (elapsed + poll_interval) (k + 1)
      else
        (none, elapsed)

/-- Shallow embedding of poll_for_video_completion (lines 208-225): starts
the loop with zero elapsed time at poll index zero. -/
def poll_for_video_completion (poller : Nat → PollStatus)
    (poll_interval timeout : Nat) : Option String × Nat :=
  pollLoopGo poller poll_interval timeout (timeout + 1) 0 0

/-! ## prompt_generator.py : the prompt-generation function

generate_veo3_prompt_with_gemini is defined (prompt_generator.py line 1)
with four positional parameters: gemini_model, product_name,
product_description and ad_brief.  Python raises TypeError at call time
when the number of arguments differs from the parameter count, before the
body runs.  The call layer is modelled explicitly so call sites keep their
source arity. -/

/-- A Python value that can be passed to generate_veo3_prompt_with_gemini:
either a string argument or a gemini model object, the latter modelled by
the behaviour of its generate_content method. -/
inductive PyValue where
  | str (s : String)
  | geminiModel (generate : String → Except PyExc String)

/-- The number of positional parameters of generate_veo3_prompt_with_gemini
as defined in prompt_generator.py line 1: gemini_model, product_name,
product_description, ad_brief. -/
def promptGenParamCount : Nat := 4

/-- The message of the TypeError Python raises when the function is called
with too few positional arguments. -/
def promptArityMsg : String :=
  "generate_veo3_prompt_with_gemini() missing 1 required positional argument: ad_brief"

/-- The f-string llm_prompt built in prompt_generator.py lines 4-54.  The
long constant advertisement-template text around the three interpolated
fields is abbreviated, since no code path inspects it; the interpolation
structure is kept. -/
def llm_prompt (product_name product_description ad_brief : String) : String :=
  "You are an expert video prompt engineer for Veo3. **Product Name:** "
    ++ product_name
    ++ " **Product Description:** " ++ product_description
    ++ " **Advertisement Brief:** " ++ ad_brief
    ++ " **Guidelines for Veo3 Prompt** ... Integrate the " ++ product_name
    ++ " logo. **Aspect Ratio:** 1:1 (Square for social media)"

/-- Body of generate_veo3_prompt_with_gemini (prompt_generator.py lines
2-64) once argument binding has succeeded: calls
gemini_model.generate_content on llm_prompt and returns the stripped text,
or returns none when that call raises (lines 62-64). -/
def promptGenBody (gemini_model : String → Except PyExc String)
    (product_name product_description ad_brief : String) : Option String :=
  match gemini_model (llm_prompt product_name product_description ad_brief) with
  | .ok text => some text.trim
  | .error _ => none

/-- A Python call of generate_veo3_prompt_with_gemini on a positional
argument list: arity is checked first (TypeError on mismatch, as Python
does before entering the body), then the arguments are bound to the four
parameters and the body runs. -/
def call_generate_veo3_prompt_with_gemini (args : List PyValue) :
    Except PyExc (Option String) :=
  if args.length ≠ promptGenParamCount then
    .error (.typeError promptArityMsg)
  else
    match args with
    | [.geminiModel m, .str a, .str b, .str c] => .ok (promptGenBody m a b c)
    | _ => .error (.typeError "argument binding failed")

/-! ## app.py : job records and the background pipeline -/

/-- One entry of video_status_store (app.py line 95), the Job Record
visible to callers.  generated_samples is a list of (uri, encoding)
pairs. -/
structure JobRecord where
  status : String
  operation_name : Option String
  generated_samples : Option (List (String × String))
  error_message : Option String
  progress_percentage : Nat
deriving DecidableEq, Repr

/-- The module-level dictionary video_status_store (app.py line 95). -/
def JobStore : Type := String → Option JobRecord

/-- The empty job store. -/
def emptyJobStore : JobStore := fun _ => none

/-- Python dict assignment video_status_store[k] = r (app.py lines 102 and
194): creates or overwrites the record. -/
def jobStoreSet (s : JobStore) (k : String) (r : JobRecord) : JobStore :=
  fun q => if q = k then some r else s q

/-- Python del video_status_store[k] (app.py line 270). -/
def jobStoreDel (s : JobStore) (k : String) : JobStore :=
  fun q => if q = k then none else s q

/-- Python video_status_store[k].update(...) and item assignment on the
nested dict (app.py lines 119, 135 and 147): raises KeyError when the key
is absent. -/
def jobStoreUpdate (s : JobStore) (k : String) (f : JobRecord → JobRecord) :
    Except PyExc JobStore :=
  match s k with
  | some r => .ok (jobStoreSet s k (f r))
  | none => .error (.keyError k)

/-- The record written by app.py lines 102-108 when the pipeline starts. -/
def processingRecord : JobRecord :=
  { status := "processing"
    operation_name := none
    generated_samples := none
    error_message := none
    progress_percentage := 10 }

/-- The record written by app.py lines 194-200 when a job is accepted. -/
def queuedRecord : JobRecord :=
  { status := "queued"
    operation_name := none
    generated_samples := none
    error_message := none
    progress_percentage := 0 }

/-- The try-block of generate_video_async (app.py lines 100-143).
promptResult is the outcome of the prompt-generation call of line 113 and
pollResult the outcome of await generate_and_poll_video of line 126, each
either a Python return value (an Option, since both return None on their
internal failure paths) or a raised exception.  deleteDuringPoll models a
DELETE /video-status/video_id request served while the pipeline is
suspended at the await of line 126, the only suspension point it reaches.
Returns the job store at exit, the exception escaping the try-block if
any, and the list of status values successively written to the record at
video_id (instrumentation used to state ordering properties). -/
def generate_video_async_body (promptResult pollResult : Except PyExc (Option String))
    (deleteDuringPoll : Bool) (store : JobStore) (video_id : String) :
    JobStore × Option PyExc × List String :=
  -- line 102: plain dict assignment, transition to processing
  let store1 := jobStoreSet store video_id processingRecord
  match promptResult with
  | .error e => (store1, some e, ["processing"])
  | .ok none =>
      -- lines 115-116
      (store1, some (.exception "Failed to generate a valid prompt"), ["processing"])
  | .ok (some _prompt) =>
      -- line 119: progress update on the stored record
      match jobStoreUpdate store1 video_id
          (fun r => { r with progress_percentage := 30 }) with
      | .error e => (store1, some e, ["processing"])
      | .ok store2 =>
          let store3 := if deleteDuringPoll then jobStoreDel store2 video_id else store2
          match pollResult with
          | .error e => (store3, some e, ["processing", "processing"])
          | .ok none =>
              -- line 143
              (store3, some (.exception "Video generation failed or timed out."),
                ["processing", "processing"])
          | .ok (some uri) =>
              -- lines 134-140: transition to completed
              match jobStoreUpdate store3 video_id (fun r =>
                  { r with
                      status := "completed"
                      generated_samples := some [(uri, "application/json")]
                      error_message := none
                      progress_percentage := 100 }) with
              | .error e => (store3, some e, ["processing", "processing"])
              | .ok store4 =>
                  (store4, none, ["processing", "processing", "completed"])

/-- generate_video_async (app.py lines 98-151): the try-block followed by
the except handler of lines 145-151, which updates the stored record to
failed with the stringified exception.  The update inside the handler can
itself raise KeyError when the record is gone; that exception escapes the
pipeline uncaught, hence the Option PyExc in the result. -/
def generate_video_async (promptResult pollResult : Except PyExc (Option String))
    (deleteDuringPoll : Bool) (store : JobStore) (video_id : String) :
    JobStore × Option PyExc × List String :=
  match generate_video_async_body promptResult pollResult deleteDuringPoll store video_id with
  | (s, none, tr) => (s, none, tr)
  | (s, some e, tr) =>
      match jobStoreUpdate s video_id (fun r =>
          { r with
              status := "failed"
              error_message := some (pyStr e)
              progress_percentage := 0 }) with
      | .ok s1 => (s1, none, tr ++ ["failed"])
      | .error e1 => (s, some e1, tr)

/-- Models the Python expression product_name.replace(" ", "_").lower()
(app.py line 191).  The replace pattern is the single space character, so
it acts character-wise; lower is Python str.lower, character-wise on the
ASCII inputs used here. -/
def sanitizeName (s : String) : String :=
  ((s.data.map (fun c => if c = ' ' then '_' else c)).map Char.toLower).asString

/-- The job identifier built in app.py line 191 from the product name and
int(time.time()), the current whole-second timestamp. -/
def jobId (product_name : String) (t : Nat) : String :=
  sanitizeName product_name ++ "_" ++ Nat.repr t

/-- One submission accepted by POST /generate-video, together with the
whole-second timestamp at which it is served.  Only the fields relevant to
job-id generation are kept. -/
structure Submission where
  product_name : String
  product_description : String
  ad_brief : String
  timestamp : Nat
deriving DecidableEq, Repr

/-- The job id assigned to a submission (app.py line 191). -/
def submissionJobId (s : Submission) : String :=
  jobId s.product_name s.timestamp

/-- One end-to-end job execution with an explicit prompt-call outcome:
generate_product_video (app.py lines 189-212) writes the queued record and
schedules generate_video_async on the same video_id.  delBeforeStart
models a DELETE of the job id arriving between the HTTP response and the
start of the background task (the task body runs without suspension until
the await of line 126).  The trace starts with the queued write. -/
def runJobWith (promptResult pollResult : Except PyExc (Option String))
    (delBeforeStart deleteDuringPoll : Bool) (store : JobStore)
    (product_name : String) (t : Nat) : JobStore × Option PyExc × List String :=
  let vid := jobId product_name t
  let store1 := jobStoreSet store vid queuedRecord
  let store2 := if delBeforeStart then jobStoreDel store1 vid else store1
  match generate_video_async promptResult pollResult deleteDuringPoll store2 vid with
  | (s, e, tr) => (s, e, "queued" :: tr)

/-- One end-to-end job execution as composed in app.py: the prompt-call
outcome is the actual call of line 113, which passes the three strings
product_name, product_description and ad_brief to
generate_veo3_prompt_with_gemini. -/
def runJob (product_name product_description ad_brief : String) (t : Nat)
    (pollResult : Except PyExc (Option String)) (delBeforeStart deleteDuringPoll : Bool)
    (store : JobStore) : JobStore × Option PyExc × List String :=
  runJobWith
    (call_generate_veo3_prompt_with_gemini
      [.str product_name, .str product_description, .str ad_brief])
    pollResult delBeforeStart deleteDuringPoll store product_name t

/-- Collapse adjacent equal entries of a status trace, leaving the sequence
of distinct states the record moves through. -/
def dedupAdj : List String → List String
  | [] => []
  | [a] => [a]
  | a :: b :: rest => if a = b then dedupAdj (b :: rest) else a :: dedupAdj (b :: rest)

/-! ## Helper lemmas about the stores -/

@[simp]
theorem jobStoreSet_same (s : JobStore) (k : String) (r : JobRecord) :
    jobStoreSet s k r k = some r := by
  simp [jobStoreSet]

@[simp]
theorem jobStoreSet_apply (s : JobStore) (k q : String) (r : JobRecord) :
    jobStoreSet s k r q = if q = k then some r else s q := rfl

@[simp]
theorem jobStoreDel_apply (s : JobStore) (k q : String) :
    jobStoreDel s k q = if q = k then none else s q := rfl

@[simp]
theorem opStoreSet_apply (s : OpStore) (k q : String) (m : OperationMetadata) :
    opStoreSet s k m q = if q = k then some m else s q := rfl

/-- The record left at the job id by the composed pipeline: the except
handler of app.py lines 145-151 applied to the processing record with the
TypeError raised by the prompt-generation call of line 113. -/
def promptFailureRecord : JobRecord :=
  { status := "failed"
    operation_name := none
    generated_samples := none
    error_message := some promptArityMsg
    progress_percentage := 0 }

/-- The prompt-generation call of app.py line 113 passes three arguments to
the four-parameter function, so it raises TypeError. -/
theorem call_prompt_three_args (a b c : String) :
    call_generate_veo3_prompt_with_gemini [.str a, .str b, .str c]
      = .error (.typeError promptArityMsg) := rfl

/-- Master description of one composed job execution: the prompt call
raises TypeError before the pipeline reaches any suspension point, the
except handler records the failure, no exception escapes, and the only key
the run touches is the job id. -/
theorem runJob_spec (n d b : String) (t : Nat) (po : Except PyExc (Option String))
    (d1 d2 : Bool) (store : JobStore) :
    (runJob n d b t po d1 d2 store).2.1 = none ∧
    (runJob n d b t po d1 d2 store).2.2 = ["queued", "processing", "failed"] ∧
    ∀ q, (runJob n d b t po d1 d2 store).1 q
      = if q = jobId n t then some promptFailureRecord else store q := by
  have hcall := call_prompt_three_args n d b
  refine ⟨?_, ?_, ?_⟩ <;>
    simp only [runJob, runJobWith, generate_video_async, generate_video_async_body,
      hcall, jobStoreUpdate, jobStoreSet_same, pyStr] <;>
    cases d1 <;>
    first
      | rfl
      | (intro q
         by_cases hq : q = jobId n t <;>
           simp [jobStoreSet, jobStoreDel, hq, promptFailureRecord, processingRecord])

/-- C1: the background pipeline calls the prompt-generation collaborator
with three arguments (product_name, product_description, ad_brief) while
its signature requires four positional parameters, so the call raises
TypeError on every invocation; consequently every job started through the
pipeline ends with status failed and no job ever reaches completed through
the prompt-generation path, for every poll outcome and every interleaved
delete. -/
theorem C1_prompt_call_arity_mismatch_fails_every_job (n d b : String) (t : Nat)
    (po : Except PyExc (Option String)) (d1 d2 : Bool) (store : JobStore) :
    call_generate_veo3_prompt_with_gemini [.str n, .str d, .str b]
        = .error (.typeError promptArityMsg) ∧
    (runJob n d b t po d1 d2 store).1 (jobId n t) = some promptFailureRecord ∧
    promptFailureRecord.status = "failed" ∧
    promptFailureRecord.status ≠ "completed" := by
  obtain ⟨-, -, hq⟩ := runJob_spec n d b t po d1 d2 store
  refine ⟨call_prompt_three_args n d b, ?_, rfl, by decide⟩
  rw [hq (jobId n t), if_pos rfl]

/-- C7: in the composed program every exception raised in the background
pipeline (always the prompt-call TypeError, since the pipeline never
reaches its only suspension point) is caught at the pipeline boundary and
converted into a failed Job Record carrying the stringified error, and no
exception escapes the pipeline, for every poll outcome and under every
interleaving of the modelled delete operations with the run. -/
theorem C7_pipeline_catches_all_exceptions (n d b : String) (t : Nat)
    (po : Except PyExc (Option String)) (d1 d2 : Bool) (store : JobStore) :
    (runJob n d b t po d1 d2 store).2.1 = none ∧
    (runJob n d b t po d1 d2 store).1 (jobId n t) = some promptFailureRecord ∧
    promptFailureRecord.status = "failed" ∧
    promptFailureRecord.error_message = some (pyStr (.typeError promptArityMsg)) := by
  obtain ⟨he, -, hq⟩ := runJob_spec n d b t po d1 d2 store
  refine ⟨he, ?_, rfl, rfl⟩
  rw [hq (jobId n t), if_pos rfl]

/-- C8: with no interleaved delete, the sequence of status values the Job
Record of one job moves through is queued, then processing, then exactly
one of completed or failed, with no state skipped and no terminal state
reverted; this holds for every outcome of the prompt call and of the poll
phase. -/
theorem C8_status_transitions_strictly_ordered
    (pr po : Except PyExc (Option String)) (store : JobStore) (n : String) (t : Nat) :
    dedupAdj (runJobWith pr po false false store n t).2.2
        = ["queued", "processing", "completed"] ∨
    dedupAdj (runJobWith pr po false false store n t).2.2
        = ["queued", "processing", "failed"] := by
  rcases pr with e | op
  · right
    simp [runJobWith, generate_video_async, generate_video_async_body,
      jobStoreUpdate, dedupAdj]
  · rcases op with - | p
    · right
      simp [runJobWith, generate_video_async, generate_video_async_body,
        jobStoreUpdate, dedupAdj]
    · rcases po with e | opo
      · right
        simp [runJobWith, generate_video_async, generate_video_async_body,
          jobStoreUpdate, jobStoreSet, dedupAdj]
      · rcases opo with - | uri
        · right
          simp [runJobWith, generate_video_async, generate_video_async_body,
            jobStoreUpdate, jobStoreSet, dedupAdj]
        · left
          simp [runJobWith, generate_video_async, generate_video_async_body,
            jobStoreUpdate, jobStoreSet, dedupAdj]

/-- The Job Record invariant of the specification: a completed record
carries a non-empty result list and no error message, a failed record
carries a non-empty error message and no result list, and a queued or
processing record carries neither. -/
def jobRecordInv (r : JobRecord) : Prop :=
  (r.status = "completed" →
    ∃ l, r.generated_samples = some l ∧ l ≠ [] ∧ r.error_message = none) ∧
  (r.status = "failed" →
    ∃ m, r.error_message = some m ∧ m ≠ "" ∧ r.generated_samples = none) ∧
  ((r.status = "queued" ∨ r.status = "processing") →
    r.generated_samples = none ∧ r.error_message = none)

/-- C6: every reachable Job Record satisfies the result/error invariant:
result present and non-empty exactly when completed, error message present
and non-empty exactly when failed, both absent when queued or processing.
Job Records are written only by job executions, so the invariant is stated
as preservation over one composed run. -/
theorem C6_job_record_result_error_invariant (n d b : String) (t : Nat)
    (po : Except PyExc (Option String)) (d1 d2 : Bool) (store : JobStore)
    (h : ∀ q r, store q = some r → jobRecordInv r) :
    ∀ q r, (runJob n d b t po d1 d2 store).1 q = some r → jobRecordInv r := by
  obtain ⟨-, -, hq⟩ := runJob_spec n d b t po d1 d2 store
  intro q r hr
  rw [hq q] at hr
  by_cases hqv : q = jobId n t
  · rw [if_pos hqv] at hr
    cases hr
    refine ⟨by decide, ?_, by decide⟩
    intro _
    exact ⟨promptArityMsg, rfl, by decide, rfl⟩
  · rw [if_neg hqv] at hr
    exact h q r hr

/-- Witness for C6 at a concrete input: the empty store satisfies the
invariant hypothesis and the record left by a concrete run satisfies the
invariant. -/
theorem C6_job_record_result_error_invariant_witness :
    (∀ q r, emptyJobStore q = some r → jobRecordInv r) ∧ jobRecordInv promptFailureRecord := by
  have hemp : ∀ q r, emptyJobStore q = some r → jobRecordInv r := by
    intro q r hr
    simp [emptyJobStore] at hr
  refine ⟨hemp, ?_⟩
  have := C6_job_record_result_error_invariant "EcoGlow Smart Garden"
    "An indoor smart garden" "futuristic and sleek" 1700000000
    (.ok none) false false emptyJobStore hemp
    (jobId "EcoGlow Smart Garden" 1700000000) promptFailureRecord
  apply this
  obtain ⟨-, -, hq⟩ := runJob_spec "EcoGlow Smart Garden"
    "An indoor smart garden" "futuristic and sleek" 1700000000
    (.ok none) false false emptyJobStore
  rw [hq _, if_pos rfl]

/-! ## Claims about the operation metadata store and the status poller -/

/-- A concrete Operation Record as stored by the primary submission path. -/
def sampleOpMetadata : OperationMetadata :=
  { operation_id := "abc"
    prompt := "a cinematic product advertisement"
    duration_seconds := 8
    aspect_ratio := "16:9"
    sample_count := 1
    output_gcs_uri := "gs://bucket/ecoglow_1/"
    status := "in_progress"
    created_at := 0
    model_response := some "ok" }

/-- A concrete operation store holding sampleOpMetadata. -/
def sampleOpStore : OpStore :=
  opStoreSet emptyOpStore "video_generation_abc" sampleOpMetadata

/-- C2 counterexample: polling the same succeeded operation twice, at
seconds 11 and 12 after creation, returns the same payload both times but
rewrites completed_at from 11 to 12, so the Operation Record is mutated
again by the later poll and completed_at is not written exactly once. -/
theorem C2_counterexample_completed_at_rewritten :
    ((check_video_generation_status sampleOpStore "video_generation_abc" 11).2
        "video_generation_abc").map (fun m => m.completed_at) = some (some 11) ∧
    ((check_video_generation_status
        (check_video_generation_status sampleOpStore "video_generation_abc" 11).2
        "video_generation_abc" 12).2
        "video_generation_abc").map (fun m => m.completed_at) = some (some 12) ∧
    (check_video_generation_status
        (check_video_generation_status sampleOpStore "video_generation_abc" 11).2
        "video_generation_abc" 12).1
      = (check_video_generation_status sampleOpStore "video_generation_abc" 11).1 ∧
    some (some 12) ≠ some (some (11 : Nat)) := by
  decide

/-- Behaviour of one poll past the completion threshold: it returns the
deterministic result URI and rewrites the stored record with status
succeeded and completed_at equal to the poll time. -/
theorem check_succeeded_eq (store : OpStore) (op : String) (m : OperationMetadata)
    (now : Nat) (hop : op ≠ "dummy_operation_name") (hm : store op = some m)
    (h : 10 < now - m.created_at) :
    check_video_generation_status store op now
      = (.succeeded (m.output_gcs_uri ++ (m.operation_id ++ ".mp4")),
         opStoreSet store op
           { m with
               status := "succeeded"
               completed_at := some now
               result_uri := some (m.output_gcs_uri ++ (m.operation_id ++ ".mp4")) }) := by
  simp only [check_video_generation_status, get_operation_metadata, hm, if_neg hop]
  rw [if_pos h]

/-- C2 amended: once an operation has passed the completion threshold,
every poll returns the same succeeded payload with the same deterministic
result URI, but the poller is not idempotent on the record: each poll
re-mutates the Operation Record, rewriting completed_at to the time of
that poll. -/
theorem C2_amended_repeated_polls_same_payload_but_rewrite
    (store : OpStore) (op : String) (m : OperationMetadata) (t1 t2 : Nat)
    (hop : op ≠ "dummy_operation_name") (hm : store op = some m)
    (h1 : m.created_at + 10 < t1) (h2 : m.created_at + 10 < t2) :
    (check_video_generation_status store op t1).1
        = .succeeded (m.output_gcs_uri ++ (m.operation_id ++ ".mp4")) ∧
    (check_video_generation_status
        (check_video_generation_status store op t1).2 op t2).1
      = (check_video_generation_status store op t1).1 ∧
    ((check_video_generation_status
        (check_video_generation_status store op t1).2 op t2).2 op).map
        (fun x => x.completed_at) = some (some t2) := by
  have e1 : 10 < t1 - m.created_at := by omega
  have hfst := check_succeeded_eq store op m t1 hop hm e1
  have hm1 : (check_video_generation_status store op t1).2 op
      = some { m with
          status := "succeeded"
          completed_at := some t1
          result_uri := some (m.output_gcs_uri ++ (m.operation_id ++ ".mp4")) } := by
    rw [hfst]
    simp
  have e2 : (10 : Nat) < t2 - ({ m with
      status := "succeeded"
      completed_at := some t1
      result_uri := some (m.output_gcs_uri ++ (m.operation_id ++ ".mp4")) }
        : OperationMetadata).created_at := by
    show (10 : Nat) < t2 - m.created_at
    omega
  have hsnd := check_succeeded_eq (check_video_generation_status store op t1).2 op
    _ t2 hop hm1 e2
  refine ⟨by rw [hfst], by rw [hsnd, hfst], ?_⟩
  rw [hsnd]
  simp

/-- Witness for C2 amended at the concrete store sampleOpStore, polling at
seconds 11 and 12. -/
theorem C2_amended_witness :
    (("video_generation_abc" : String) ≠ "dummy_operation_name" ∧
      sampleOpStore "video_generation_abc" = some sampleOpMetadata ∧
      sampleOpMetadata.created_at + 10 < 11 ∧ sampleOpMetadata.created_at + 10 < 12) ∧
    ((check_video_generation_status sampleOpStore "video_generation_abc" 11).1
        = .succeeded (sampleOpMetadata.output_gcs_uri
            ++ (sampleOpMetadata.operation_id ++ ".mp4")) ∧
      (check_video_generation_status
          (check_video_generation_status sampleOpStore "video_generation_abc" 11).2
          "video_generation_abc" 12).1
        = (check_video_generation_status sampleOpStore "video_generation_abc" 11).1 ∧
      ((check_video_generation_status
          (check_video_generation_status sampleOpStore "video_generation_abc" 11).2
          "video_generation_abc" 12).2 "video_generation_abc").map
          (fun x => x.completed_at) = some (some 12)) :=
  ⟨⟨by decide, by decide, by decide, by decide⟩,
    C2_amended_repeated_polls_same_payload_but_rewrite sampleOpStore
      "video_generation_abc" sampleOpMetadata 11 12
      (by decide) (by decide) (by decide) (by decide)⟩

/-- C4: when both the primary backend call and the fallback generation
strategy fail, the submission function returns the sentinel operation
identifier without touching the store, and the status poller, given the
sentinel identifier, returns the fixed synthetic succeeded payload on the
very first poll against any store, leaving that store untouched. -/
theorem C4_double_failure_sentinel_synthetic_success
    (env : GenEnv) (e1 e2 : PyExc)
    (hp : env.primary = .error e1) (hf : env.fallback = .error e2)
    (veo3_prompt output_gcs_uri : String) (dur : Nat) (ar : String) (sc : Nat)
    (opId : String) (now : Nat) (store : OpStore) :
    generate_video_with_veo3 env veo3_prompt output_gcs_uri dur ar sc opId now store
        = ("dummy_operation_name", store) ∧
    ∀ (s : OpStore) (tm : Nat),
      check_video_generation_status s "dummy_operation_name" tm
        = (.succeeded "gs://dummy-bucket/generated_video.mp4", s) := by
  constructor
  · simp [generate_video_with_veo3, hp, hf]
  · intro s tm
    simp [check_video_generation_status]

/-- An environment in which both backend calls fail. -/
def bothFailEnv : GenEnv :=
  { primary := .error (.exception "quota exceeded")
    fallback := .error (.exception "model unavailable") }

/-- Witness for C4 at a concrete double-failure environment. -/
theorem C4_double_failure_witness :
    (bothFailEnv.primary = .error (.exception "quota exceeded") ∧
      bothFailEnv.fallback = .error (.exception "model unavailable")) ∧
    (generate_video_with_veo3 bothFailEnv "p" "gs://b/" 8 "16:9" 1 "abc" 5 emptyOpStore
        = ("dummy_operation_name", emptyOpStore) ∧
      ∀ (s : OpStore) (tm : Nat),
        check_video_generation_status s "dummy_operation_name" tm
          = (.succeeded "gs://dummy-bucket/generated_video.mp4", s)) :=
  ⟨⟨rfl, rfl⟩,
    C4_double_failure_sentinel_synthetic_success bothFailEnv
      (.exception "quota exceeded") (.exception "model unavailable") rfl rfl
      "p" "gs://b/" 8 "16:9" 1 "abc" 5 emptyOpStore⟩

/-- C5: whenever the submission function returns a non-sentinel operation
identifier, an Operation Record for that identifier has been written to
the operation store before the identifier is returned, and polling that
identifier against the returned store never yields the not-found error. -/
theorem C5_record_stored_before_identifier_returned
    (env : GenEnv) (veo3_prompt output_gcs_uri : String) (dur : Nat) (ar : String)
    (sc : Nat) (opId : String) (now : Nat) (store : OpStore)
    (hn : (generate_video_with_veo3 env veo3_prompt output_gcs_uri dur ar sc
        opId now store).1 ≠ "dummy_operation_name") :
    ∃ m, (generate_video_with_veo3 env veo3_prompt output_gcs_uri dur ar sc
          opId now store).2
        ((generate_video_with_veo3 env veo3_prompt output_gcs_uri dur ar sc
          opId now store).1) = some m ∧
      ∀ tm, (check_video_generation_status
          (generate_video_with_veo3 env veo3_prompt output_gcs_uri dur ar sc
            opId now store).2
          ((generate_video_with_veo3 env veo3_prompt output_gcs_uri dur ar sc
            opId now store).1) tm).1
        ≠ .error "Operation not found" := by
  have hstored : ∃ m, (generate_video_with_veo3 env veo3_prompt output_gcs_uri dur ar sc
      opId now store).2
      ((generate_video_with_veo3 env veo3_prompt output_gcs_uri dur ar sc
        opId now store).1) = some m := by
    rcases henv : env.primary with e | resp
    · rcases henvf : env.fallback with e2 | resp
      · exact absurd (by simp [generate_video_with_veo3, henv, henvf]) hn
      · simp only [generate_video_with_veo3, henv, henvf, opStoreSet_apply, if_true]
        exact ⟨_, rfl⟩
    · simp only [generate_video_with_veo3, henv, opStoreSet_apply, if_true]
      exact ⟨_, rfl⟩
  obtain ⟨m, hm⟩ := hstored
  refine ⟨m, hm, ?_⟩
  intro tm
  unfold check_video_generation_status
  rw [if_neg hn]
  simp only [get_operation_metadata, hm]
  split <;> simp

/-- An environment in which the primary backend call succeeds. -/
def primaryOkEnv : GenEnv :=
  { primary := .ok ⟨some "generation started"⟩
    fallback := .ok ⟨some "unused"⟩ }

/-- Witness for C5 at a concrete successful submission. -/
theorem C5_record_stored_witness :
    (generate_video_with_veo3 primaryOkEnv "p" "gs://b/" 8 "16:9" 1 "abc" 5
        emptyOpStore).1 ≠ "dummy_operation_name" ∧
    ∃ m, (generate_video_with_veo3 primaryOkEnv "p" "gs://b/" 8 "16:9" 1 "abc" 5
          emptyOpStore).2
        ((generate_video_with_veo3 primaryOkEnv "p" "gs://b/" 8 "16:9" 1 "abc" 5
          emptyOpStore).1) = some m ∧
      ∀ tm, (check_video_generation_status
          (generate_video_with_veo3 primaryOkEnv "p" "gs://b/" 8 "16:9" 1 "abc" 5
            emptyOpStore).2
          ((generate_video_with_veo3 primaryOkEnv "p" "gs://b/" 8 "16:9" 1 "abc" 5
            emptyOpStore).1) tm).1
        ≠ .error "Operation not found" :=
  ⟨by decide,
    C5_record_stored_before_identifier_returned primaryOkEnv "p" "gs://b/" 8 "16:9" 1
      "abc" 5 emptyOpStore (by decide)⟩

/-- An environment in which the primary backend call fails and the
fallback text-model call succeeds. -/
def fallbackOnlyEnv : GenEnv :=
  { primary := .error (.exception "video model rejected")
    fallback := .ok ⟨some "plan text"⟩ }

/-- C10 counterexample: on the fallback submission path the stored
Operation Record has backend status production_plan_generated, which is
none of the four documented values in_progress, succeeded, failed,
error. -/
theorem C10_counterexample_fallback_status_outside_documented_set :
    ((generate_video_with_veo3 fallbackOnlyEnv "p" "gs://b/" 8 "16:9" 1 "abc" 5
          emptyOpStore).2
        ((generate_video_with_veo3 fallbackOnlyEnv "p" "gs://b/" 8 "16:9" 1 "abc" 5
          emptyOpStore).1)).map (fun m => m.status)
      = some "production_plan_generated" ∧
    ("production_plan_generated" ≠ "in_progress" ∧
      "production_plan_generated" ≠ "succeeded" ∧
      "production_plan_generated" ≠ "failed" ∧
      "production_plan_generated" ≠ "error") := by
  decide

/-- C10 amended: every Operation Record written by the submission function
has backend status in_progress (primary path) or production_plan_generated
(fallback path, a fifth value outside the documented four-value set), and
every record written by the status poller has backend status succeeded;
records not written by the call are unchanged. -/
theorem C10_amended_backend_status_values
    (env : GenEnv) (veo3_prompt output_gcs_uri : String) (dur : Nat) (ar : String)
    (sc : Nat) (opId : String) (now : Nat) (store : OpStore)
    (s : OpStore) (opq : String) (tm : Nat) (op : String) :
    (∀ m, (generate_video_with_veo3 env veo3_prompt output_gcs_uri dur ar sc
          opId now store).2 op = some m →
      store op = some m ∨ m.status = "in_progress"
        ∨ m.status = "production_plan_generated") ∧
    (∀ m, (check_video_generation_status s opq tm).2 op = some m →
      s op = some m ∨ m.status = "succeeded") := by
  constructor
  · intro m hm
    rcases henv : env.primary with e | resp
    · rcases henvf : env.fallback with e2 | resp
      · simp only [generate_video_with_veo3, henv, henvf] at hm
        exact Or.inl hm
      · simp only [generate_video_with_veo3, henv, henvf, opStoreSet_apply] at hm
        by_cases hop : op = "video_generation_" ++ opId
        · rw [if_pos hop] at hm
          cases hm
          right; right; rfl
        · rw [if_neg hop] at hm
          exact Or.inl hm
    · simp only [generate_video_with_veo3, henv, opStoreSet_apply] at hm
      by_cases hop : op = "video_generation_" ++ opId
      · rw [if_pos hop] at hm
        cases hm
        right; left; rfl
      · rw [if_neg hop] at hm
        exact Or.inl hm
  · intro m hm
    unfold check_video_generation_status at hm
    by_cases hd : opq = "dummy_operation_name"
    · rw [if_pos hd] at hm
      exact Or.inl hm
    · rw [if_neg hd] at hm
      rcases hmd : get_operation_metadata s opq with - | md
      · rw [hmd] at hm
        exact Or.inl hm
      · rw [hmd] at hm
        simp only at hm
        by_cases helapsed : tm - md.created_at > 10
        · rw [if_pos helapsed] at hm
          simp only [opStoreSet_apply] at hm
          by_cases hop : op = opq
          · rw [if_pos hop] at hm
            cases hm
            right; rfl
          · rw [if_neg hop] at hm
            exact Or.inl hm
        · rw [if_neg helapsed] at hm
          exact Or.inl hm

/-- The Operation Record the fallback path stores for the concrete inputs
used in the C10 witness. -/
def fallbackPlanMetadata : OperationMetadata :=
  { operation_id := "abc"
    prompt := "p"
    duration_seconds := 8
    aspect_ratio := "16:9"
    sample_count := 1
    output_gcs_uri := "gs://b/"
    status := "production_plan_generated"
    created_at := 5
    video_production_plan := some "plan text"
    model_used := some "gemini-2.5-flash" }

/-- Witness for C10 amended at the concrete fallback environment. -/
theorem C10_amended_witness :
    emptyOpStore "video_generation_abc" = some fallbackPlanMetadata ∨
    fallbackPlanMetadata.status = "in_progress" ∨
    fallbackPlanMetadata.status = "production_plan_generated" :=
  (C10_amended_backend_status_values fallbackOnlyEnv "p" "gs://b/" 8 "16:9" 1 "abc" 5
      emptyOpStore emptyOpStore "x" 0 "video_generation_abc").1
    fallbackPlanMetadata (by decide)

/-! ## Claims about the poll loop -/

/-- Soundness of the poll loop: a returned URI comes from some poll that
reported succeeded with that URI. -/
theorem pollLoopGo_some_succeeded (poller : Nat → PollStatus) (i t : Nat) :
    ∀ (fuel elapsed k : Nat) (uri : String),
      (pollLoopGo poller i t fuel elapsed k).1 = some uri →
      ∃ j, poller j = .succeeded uri := by
  intro fuel
  induction fuel with
  | zero =>
      intro elapsed k uri h
      simp [pollLoopGo] at h
  | succ fuel ih =>
      intro elapsed k uri h
      rw [pollLoopGo] at h
      by_cases he : elapsed < t
      · rw [if_pos he] at h
        rcases hp : poller k with u | - | e | e <;> rw [hp] at h
        · refine ⟨k, ?_⟩
          rw [hp]
          simp only [Option.some.injEq] at h
          rw [h]
        · exact ih (elapsed + i) (k + 1) uri h
        · simp at h
        · simp at h
      · rw [if_neg he] at h
        simp at h

/-- When the polls up to some index are all in progress and the poll at
that index reports failed or error, the loop returns none: it either
reaches that terminal poll or times out first, and both exits return
none. -/
theorem pollLoopGo_failed_none (poller : Nat → PollStatus) (i t : Nat)
    (kf : Nat) (e : String)
    (hterm : poller kf = .failed e ∨ poller kf = .error e) :
    ∀ (fuel elapsed k : Nat), k ≤ kf →
      (∀ j, k ≤ j → j < kf → poller j = .in_progress) →
      (pollLoopGo poller i t fuel elapsed k).1 = none := by
  intro fuel
  induction fuel with
  | zero =>
      intro elapsed k _ _
      simp [pollLoopGo]
  | succ fuel ih =>
      intro elapsed k hk hprog
      rw [pollLoopGo]
      by_cases he : elapsed < t
      · rw [if_pos he]
        by_cases hkk : k = kf
        · subst hkk
          rcases hterm with hkt | hkt <;> rw [hkt]
        · have hklt : k < kf := lt_of_le_of_ne hk hkk
          rw [hprog k le_rfl hklt]
          exact ih (elapsed + i) (k + 1) hklt
            (fun j hj1 hj2 => hprog j (by omega) hj2)
      · rw [if_neg he]

/-- With a poller that never reports a terminal state, the loop returns
none and the elapsed time at exit stays below timeout + interval, since
every iteration re-checks the timeout before sleeping once more. -/
theorem pollLoopGo_nonterminal (poller : Nat → PollStatus) (i t : Nat)
    (hprog : ∀ j, poller j = .in_progress) :
    ∀ (fuel elapsed k : Nat), elapsed < t + i →
      (pollLoopGo poller i t fuel elapsed k).1 = none ∧
      (pollLoopGo poller i t fuel elapsed k).2 < t + i := by
  intro fuel
  induction fuel with
  | zero =>
      intro elapsed k hb
      exact ⟨rfl, hb⟩
  | succ fuel ih =>
      intro elapsed k hb
      rw [pollLoopGo, hprog k]
      by_cases he : elapsed < t
      · rw [if_pos he]
        exact ih (elapsed + i) (k + 1) (by omega)
      · rw [if_neg he]
        exact ⟨rfl, hb⟩

/-- C3: the poll loop returns a URI only when some poll returned succeeded
with that URI; it returns none whenever the first non-in-progress poll
reports failed or error; and against a poller that never reaches a
terminal state it returns none with an exit time within one poll interval
past the timeout measured from loop start, so it never loops
unboundedly. -/
theorem C3_poll_loop_terminates_correctly (poller : Nat → PollStatus)
    (i t : Nat) (hi : 0 < i) :
    (∀ uri, (poll_for_video_completion poller i t).1 = some uri →
      ∃ j, poller j = .succeeded uri) ∧
    (∀ kf e, (∀ j, j < kf → poller j = .in_progress) →
      (poller kf = .failed e ∨ poller kf = .error e) →
      (poll_for_video_completion poller i t).1 = none) ∧
    ((∀ j, poller j = .in_progress) →
      (poll_for_video_completion poller i t).1 = none ∧
      (poll_for_video_completion poller i t).2 < t + i) := by
  refine ⟨?_, ?_, ?_⟩
  · intro uri h
    exact pollLoopGo_some_succeeded poller i t (t + 1) 0 0 uri h
  · intro kf e hbefore hterm
    exact pollLoopGo_failed_none poller i t kf e hterm (t + 1) 0 0
      (Nat.zero_le kf) (fun j _ hj => hbefore j hj)
  · intro hprog
    exact pollLoopGo_nonterminal poller i t hprog (t + 1) 0 0 (by omega)

/-- Witness for C3 at the claimed concrete scenario: a one-second timeout,
a one-second interval and a poller that never reaches a terminal state;
the loop returns none within one interval past the timeout. -/
theorem C3_poll_loop_witness :
    (0 : Nat) < 1 ∧
    ((∀ uri, (poll_for_video_completion (fun _ => .in_progress) 1 1).1 = some uri →
        ∃ j, (fun _ : Nat => PollStatus.in_progress) j = .succeeded uri) ∧
      (∀ kf e, (∀ j, j < kf → (fun _ : Nat => PollStatus.in_progress) j = .in_progress) →
        ((fun _ : Nat => PollStatus.in_progress) kf = .failed e ∨
          (fun _ : Nat => PollStatus.in_progress) kf = .error e) →
        (poll_for_video_completion (fun _ => .in_progress) 1 1).1 = none) ∧
      ((∀ j, (fun _ : Nat => PollStatus.in_progress) j = .in_progress) →
        (poll_for_video_completion (fun _ => .in_progress) 1 1).1 = none ∧
        (poll_for_video_completion (fun _ => .in_progress) 1 1).2 < 1 + 1)) :=
  ⟨by decide, C3_poll_loop_terminates_correctly (fun _ => .in_progress) 1 1 (by decide)⟩

/-! ## Claims about job-id generation

The job id is the sanitized product name joined with the whole-second
timestamp, so it is injective in the timestamp for a fixed name; the
injectivity of the decimal representation of Nat is established first. -/

/-- Decimal value of a digit character, the inverse of Nat.digitChar on
digits below ten. -/
def digitVal (c : Char) : Nat := c.toNat - 48

theorem digitVal_digitChar (d : Nat) (h : d < 10) :
    digitVal (Nat.digitChar d) = d := by
  interval_cases d <;> rfl

/-- Folding the decimal digit values over the output of Nat.toDigitsCore
recovers the represented number in front of the tail digits. -/
theorem toDigitsCore_foldl (fuel : Nat) :
    ∀ (n : Nat) (ds : List Char), n < fuel →
      (Nat.toDigitsCore 10 fuel n ds).foldl (fun a c => a * 10 + digitVal c) 0
        = ds.foldl (fun a c => a * 10 + digitVal c) n := by
  induction fuel with
  | zero =>
      intro n ds h
      exact absurd h (Nat.not_lt_zero n)
  | succ fuel ih =>
      intro n ds h
      simp only [Nat.toDigitsCore]
      by_cases h0 : n / 10 = 0
      · rw [if_pos h0, List.foldl_cons, digitVal_digitChar (n % 10) (Nat.mod_lt n (by decide))]
        have harg : 0 * 10 + n % 10 = n := by omega
        rw [harg]
      · rw [if_neg h0]
        have hn : n / 10 < fuel := by omega
        rw [ih (n / 10) (Nat.digitChar (n % 10) :: ds) hn, List.foldl_cons,
          digitVal_digitChar (n % 10) (Nat.mod_lt n (by decide))]
        have harg : n / 10 * 10 + n % 10 = n := by omega
        rw [harg]

/-- Folding the decimal digit values over the decimal representation of a
number recovers the number. -/
theorem repr_foldl_eq (n : Nat) :
    (Nat.repr n).data.foldl (fun a c => a * 10 + digitVal c) 0 = n := by
  show (Nat.toDigitsCore 10 (n + 1) n []).foldl (fun a c => a * 10 + digitVal c) 0 = n
  rw [toDigitsCore_foldl (n + 1) n [] (Nat.lt_succ_self n)]
  rfl

/-- The decimal representation of Nat is injective. -/
theorem natRepr_injective (a b : Nat) (h : Nat.repr a = Nat.repr b) : a = b := by
  have ha := repr_foldl_eq a
  have hb := repr_foldl_eq b
  rw [h] at ha
  exact ha.symm.trans hb

/-- C9 counterexample: two distinct submissions, differing only in the
product description, with the same product name and the same whole-second
timestamp receive identical job ids, so job ids are not distinct across
distinct submissions and same-name submissions do not always receive
different ids. -/
theorem C9_counterexample_same_second_collision :
    (⟨"EcoGlow", "first description", "futuristic", 1700000000⟩ : Submission)
        ≠ (⟨"EcoGlow", "second description", "futuristic", 1700000000⟩ : Submission) ∧
    (⟨"EcoGlow", "first description", "futuristic", 1700000000⟩ : Submission).product_name
      = (⟨"EcoGlow", "second description", "futuristic", 1700000000⟩ : Submission).product_name ∧
    submissionJobId ⟨"EcoGlow", "first description", "futuristic", 1700000000⟩
      = submissionJobId ⟨"EcoGlow", "second description", "futuristic", 1700000000⟩ := by
  refine ⟨by decide, rfl, rfl⟩

/-- C9 amended: the job id depends only on the sanitized product name and
the whole-second timestamp, so distinctness holds exactly up to that pair:
two submissions with the same product name receive different job ids
whenever their whole-second timestamps differ, while submissions sharing
name and second collide. -/
theorem C9_amended_distinct_timestamps_distinct_ids
    (s1 s2 : Submission) (hname : s1.product_name = s2.product_name)
    (ht : s1.timestamp ≠ s2.timestamp) :
    submissionJobId s1 ≠ submissionJobId s2 := by
  intro h
  apply ht
  unfold submissionJobId jobId at h
  rw [hname] at h
  have hd := congrArg String.data h
  simp only [String.data_append] at hd
  have hd2 := List.append_cancel_left hd
  have hrepr : Nat.repr s1.timestamp = Nat.repr s2.timestamp :=
    congrArg String.mk hd2
  exact natRepr_injective s1.timestamp s2.timestamp hrepr

/-- Witness for C9 amended: same product name, timestamps one second
apart, distinct job ids. -/
theorem C9_amended_witness :
    ((⟨"EcoGlow", "d", "b", 1700000000⟩ : Submission).product_name
        = (⟨"EcoGlow", "d", "b", 1700000001⟩ : Submission).product_name ∧
      (⟨"EcoGlow", "d", "b", 1700000000⟩ : Submission).timestamp
        ≠ (⟨"EcoGlow", "d", "b", 1700000001⟩ : Submission).timestamp) ∧
    submissionJobId ⟨"EcoGlow", "d", "b", 1700000000⟩
      ≠ submissionJobId ⟨"EcoGlow", "d", "b", 1700000001⟩ :=
  ⟨⟨rfl, by decide⟩,
    C9_amended_distinct_timestamps_distinct_ids
      ⟨"EcoGlow", "d", "b", 1700000000⟩ ⟨"EcoGlow", "d", "b", 1700000001⟩
      rfl (by decide)⟩

end VideoPoc
